import Mathlib

/-!
Verification of the MetroHash Python wrapper (src/metrohash.pyx).

The file embeds the Cython wrapper shallowly: byte sequences are lists of
naturals, the input-dispatch chain of each entry point becomes a match on an
inductive input type, raising becomes an explicit error value, and the
incremental hasher becomes explicit state passing.  The native mixing
primitive declared in metro.h is external to the wrapper source, so it is
modelled from the specification: a pure hash function of the accumulated
bytes and the seed, quantified over in every theorem that uses it.
-/

namespace MetroHashPy

/-- Byte sequences as lists of naturals (each value a byte, 0..255). -/
abbrev ByteSeq := List Nat

/-- Modelled from the spec: the UTF-8 encoding of one Unicode code point,
standing in for the encoder behind PyUnicode_AsUTF8String, which is not part
of the wrapper source.  Standard UTF-8: 1 to 4 bytes by code-point range. -/
def utf8EncodeCp (c : Nat) : List Nat :=
  if c < 0x80 then [c]
  else if c < 0x800 then
    [0xC0 ||| (c >>> 6), 0x80 ||| (c &&& 0x3F)]
  else if c < 0x10000 then
    [0xE0 ||| (c >>> 12), 0x80 ||| ((c >>> 6) &&& 0x3F), 0x80 ||| (c &&& 0x3F)]
  else
    [0xF0 ||| (c >>> 18), 0x80 ||| ((c >>> 12) &&& 0x3F),
     0x80 ||| ((c >>> 6) &&& 0x3F), 0x80 ||| (c &&& 0x3F)]

/-- Modelled from the spec: UTF-8 encoding of a text value, given as its
sequence of Unicode code points (a Python unicode string is a sequence of
code points). -/
def utf8Encode (t : List Nat) : ByteSeq :=
  (t.map utf8EncodeCp).flatten

/-- Input values as the dispatch chain of the wrapper distinguishes them:
a unicode text (PyUnicode_Check), a byte string (PyString_Check), an object
exposing a contiguous read-only buffer (PyObject_CheckBuffer), or anything
else, carrying the name of its type for the error message. -/
inductive Input where
  | text (cps : List Nat)
  | bytestr (b : ByteSeq)
  | buffer (b : ByteSeq)
  | other (tyname : String)
  deriving DecidableEq

/-- The data carried by the TypeError built by _type_error (source lines
73-77): the argument name, the expected categories, and the actual type. -/
structure PyTypeError where
  argname : String
  expected : List String
  got : String
  deriving DecidableEq

/-- Embedding of _type_error (source lines 73-77): builds the error value
from the argument name, the expected categories and the observed type. -/
def _type_error (argname : String) (expected : List String) (got : String) :
    PyTypeError :=
  ⟨argname, expected, got⟩

/-- The input dispatch chain shared verbatim by metrohash64, metrohash128,
MetroHash64.update and MetroHash128.update (source lines 86-98, 108-120,
148-160, 191-203): text is encoded to UTF-8, byte strings and buffer objects
are viewed directly, anything else yields the TypeError of _type_error. -/
def adaptInput (data : Input) : Except PyTypeError ByteSeq :=
  match data with
  | .text t => .ok (utf8Encode t)
  | .bytestr b => .ok b
  | .buffer b => .ok b
  | .other ty => .error (_type_error "data" ["basestring", "buffer"] ty)

/-- Modelled from the spec: the external 64-bit mixing primitive of metro.h
(c_metrohash64, and the Initialize/Update/Finalize protocol of the
incremental class combined with c_bytes2int64).  The wrapper source does not
contain its arithmetic; per the spec it is a pure function of the full byte
sequence and the seed, producing one 64-bit word, and feeding the bytes
incrementally is equivalent to hashing the concatenation. -/
structure Mix64 where
  hash : ByteSeq → Nat → Nat
  hash_lt : ∀ b s, hash b s < 2 ^ 64

/-- Modelled from the spec: the external 128-bit mixing primitive of metro.h
(c_metrohash128 and the incremental class combined with c_bytes2int128).
It produces a pair of 64-bit words (first, second). -/
structure Mix128 where
  hash : ByteSeq → Nat → Nat × Nat
  first_lt : ∀ b s, (hash b s).1 < 2 ^ 64
  second_lt : ∀ b s, (hash b s).2 < 2 ^ 64

/-- Embedding of the one-shot metrohash64 (source lines 80-99): dispatch the
input to a byte view, hash the whole view with the seed, propagate the
TypeError of the else branch unchanged. -/
def metrohash64 (M : Mix64) (data : Input) (seed : Nat) :
    Except PyTypeError Nat :=
  match adaptInput data with
  | .ok b => .ok (M.hash b seed)
  | .error e => .error e

/-- The seed parameter of metrohash64 defaults to 0 (source line 80,
seed=0ULL). -/
def metrohash64_default (M : Mix64) (data : Input) : Except PyTypeError Nat :=
  metrohash64 M data 0

/-- The composition on source line 121:
final = 0x10000000000000000L * long(result.first) + long(result.second). -/
def oneShotAssemble128 (first second : Nat) : Nat :=
  0x10000000000000000 * first + second

/-- Embedding of the one-shot metrohash128 (source lines 102-122): dispatch
the input, hash the whole view obtaining a pair of words, assemble them per
source line 121. -/
def metrohash128 (M : Mix128) (data : Input) (seed : Nat) :
    Except PyTypeError Nat :=
  match adaptInput data with
  | .ok b =>
    let result := M.hash b seed
    .ok (oneShotAssemble128 result.1 result.2)
  | .error e => .error e

/-- The seed parameter of metrohash128 defaults to 0 (source line 102,
seed=0ULL). -/
def metrohash128_default (M : Mix128) (data : Input) : Except PyTypeError Nat :=
  metrohash128 M data 0

/-- Modelled from the spec: the hash state owned by an incremental hasher.
The primitive state is opaque in the wrapper; per the spec it is determined
by the seed of the last Initialize and the bytes fed since, finalize hashing
their concatenation. -/
structure MetroState where
  seed : Nat
  acc : ByteSeq
  deriving DecidableEq

namespace MetroHash64

/-- Embedding of MetroHash64.__cinit__ (source lines 132-135): construct the
primitive state with the given seed. -/
def mkHasher (seed : Nat) : MetroState :=
  ⟨seed, []⟩

/-- The seed parameter of the constructor defaults to 0 (source line 132,
seed=0ULL). -/
def mkHasherDefault : MetroState :=
  mkHasher 0

/-- Embedding of MetroHash64.initialize (source lines 142-143): reset the
primitive state with the given seed, discarding accumulated bytes. -/
def reinit (_st : MetroState) (seed : Nat) : MetroState :=
  ⟨seed, []⟩

/-- The seed parameter of initialize defaults to 0 (source line 142,
seed=0ULL): a call with no argument passes 0, not the construction seed. -/
def reinitDefault (st : MetroState) : MetroState :=
  reinit st 0

/-- Embedding of MetroHash64.update (source lines 145-160): dispatch the
input; on success feed the bytes to the running state, on failure raise and
leave the state untouched. -/
def update (st : MetroState) (data : Input) : MetroState × Option PyTypeError :=
  match adaptInput data with
  | .ok b => (⟨st.seed, st.acc ++ b⟩, none)
  | .error e => (st, some e)

/-- Embedding of MetroHash64.intdigest (source lines 162-165): finalize the
current state into 8 bytes and read them as one unsigned 64-bit integer
(Finalize then c_bytes2int64, modelled jointly by the primitive). -/
def intdigest (M : Mix64) (st : MetroState) : Nat :=
  M.hash st.acc st.seed

end MetroHash64

/-- The composition on source lines 208-209:
0x10000000000000000L * long(result.first) + long(result.second). -/
def digestAssemble128 (first second : Nat) : Nat :=
  0x10000000000000000 * first + second

namespace MetroHash128

/-- Embedding of MetroHash128.__cinit__ (source lines 175-178). -/
def mkHasher (seed : Nat) : MetroState :=
  ⟨seed, []⟩

/-- The seed parameter of the constructor defaults to 0 (source line 175,
seed=0ULL). -/
def mkHasherDefault : MetroState :=
  mkHasher 0

/-- Embedding of MetroHash128.initialize (source lines 185-186). -/
def reinit (_st : MetroState) (seed : Nat) : MetroState :=
  ⟨seed, []⟩

/-- The seed parameter of initialize defaults to 0 (source line 185,
seed=0ULL). -/
def reinitDefault (st : MetroState) : MetroState :=
  reinit st 0

/-- Embedding of MetroHash128.update (source lines 188-203): identical
dispatch to the 64-bit variant, feeding the 128-bit primitive state. -/
def update (st : MetroState) (data : Input) : MetroState × Option PyTypeError :=
  match adaptInput data with
  | .ok b => (⟨st.seed, st.acc ++ b⟩, none)
  | .error e => (st, some e)

/-- Embedding of MetroHash128.intdigest (source lines 205-209): finalize
into 16 bytes, read them as two 64-bit words (c_bytes2int128), and assemble
per source lines 208-209. -/
def intdigest (M : Mix128) (st : MetroState) : Nat :=
  let result := M.hash st.acc st.seed
  digestAssemble128 result.1 result.2

end MetroHash128

/-- Spec definition (section 4.4): assemble128(high, low) = high * 2^64 + low.
Written from the words of the spec, to be compared with the compositions the
two call sites of the source use. -/
def assemble128_spec (high low : Nat) : Nat :=
  high * 2 ^ 64 + low

/-- A concrete instance of the 64-bit primitive interface, used only to
instantiate witnesses at concrete inputs.  It is seed sensitive: on the
empty sequence it returns the seed reduced modulo 2^64. -/
def testMix64 : Mix64 where
  hash b s := (b.foldl (fun a x => 2 * a + x) s) % 2 ^ 64
  hash_lt b s := Nat.mod_lt _ (by norm_num)

/-- A concrete instance of the 128-bit primitive interface, used only to
instantiate witnesses at concrete inputs. -/
def testMix128 : Mix128 where
  hash b s := ((b.length + s) % 2 ^ 64, (b.foldl (fun a x => a + x) s) % 2 ^ 64)
  first_lt b s := Nat.mod_lt _ (by norm_num)
  second_lt b s := Nat.mod_lt _ (by norm_num)

/-- One event in the CPython reference count history of the owned buffer
object created for a textual input: creation of a new reference
(PyUnicode_AsUTF8String assigned to the obj local), PyObject_GetBuffer
storing a reference inside the buffer view, Py_DECREF (explicit, or the
implicit release of the obj local at function exit), and the primitive
reading through the buffer. -/
inductive RefOp where
  | newRef
  | getBuffer
  | decref
  | useBuffer
  deriving DecidableEq

/-- State of the traced object: its reference count, whether it has been
freed, and whether every buffer use so far touched a live object. -/
structure RefState where
  rc : Nat
  freed : Bool
  usesAlive : Bool
  deriving DecidableEq

/-- CPython reference count semantics for one event: a new reference starts
the count at 1; PyObject_GetBuffer increments it (the view owns a
reference); Py_DECREF decrements it and frees the object when it reaches
zero; using the buffer is sound only while the object is not freed. -/
def refStep (st : RefState) (op : RefOp) : RefState :=
  match op with
  | .newRef => ⟨1, false, st.usesAlive⟩
  | .getBuffer => ⟨st.rc + 1, st.freed, st.usesAlive⟩
  | .decref => ⟨st.rc - 1, st.freed || decide (st.rc ≤ 1), st.usesAlive⟩
  | .useBuffer => ⟨st.rc, st.freed, st.usesAlive && (!st.freed && decide (0 < st.rc))⟩

/-- Whether every useBuffer event in a history touches a live object. -/
def bufferAliveAtUse (ops : List RefOp) : Bool :=
  (ops.foldl refStep ⟨0, false, true⟩).usesAlive

/-- The reference count history of the textual path of MetroHash64.update
(source lines 148-152), with the implicit release of the obj local at
function exit appended: PyUnicode_AsUTF8String, PyObject_GetBuffer,
Py_DECREF, the Update call reading the buffer, exit release. -/
def updateTextTrace64 : List RefOp :=
  [.newRef, .getBuffer, .decref, .useBuffer, .decref]

/-- The reference count history of the textual path of MetroHash128.update
(source lines 191-195), with the exit release appended. -/
def updateTextTrace128 : List RefOp :=
  [.newRef, .getBuffer, .decref, .useBuffer, .decref]

/-- Feeding byte chunks one 64-bit update at a time appends their
concatenation to the accumulator and preserves the seed. -/
theorem foldl_update64_bytes (chunks : List ByteSeq) (st : MetroState) :
    chunks.foldl (fun st c => (MetroHash64.update st (Input.bytestr c)).1) st
      = ⟨st.seed, st.acc ++ chunks.flatten⟩ := by
  induction chunks generalizing st with
  | nil => cases st; simp
  | cons c cs ih =>
    simp only [List.foldl_cons, List.flatten_cons]
    rw [ih]
    simp [MetroHash64.update, adaptInput, List.append_assoc]

/-- Feeding byte chunks one 128-bit update at a time appends their
concatenation to the accumulator and preserves the seed. -/
theorem foldl_update128_bytes (chunks : List ByteSeq) (st : MetroState) :
    chunks.foldl (fun st c => (MetroHash128.update st (Input.bytestr c)).1) st
      = ⟨st.seed, st.acc ++ chunks.flatten⟩ := by
  induction chunks generalizing st with
  | nil => cases st; simp
  | cons c cs ih =>
    simp only [List.foldl_cons, List.flatten_cons]
    rw [ih]
    simp [MetroHash128.update, adaptInput, List.append_assoc]

/-- Claim C1: for every seed and every partition of a byte sequence into
chunks, updating an incremental hasher chunk by chunk and reading the
digest yields the same integer as the one-shot hash of the concatenation,
for the 64-bit pair (metrohash64 / MetroHash64.intdigest) and the 128-bit
pair (metrohash128 / MetroHash128.intdigest). -/
theorem chunked_updates_match_one_shot (M64 : Mix64) (M128 : Mix128)
    (s : Nat) (chunks : List ByteSeq) :
    metrohash64 M64 (Input.bytestr chunks.flatten) s
      = .ok (MetroHash64.intdigest M64
          (chunks.foldl (fun st c => (MetroHash64.update st (Input.bytestr c)).1)
            (MetroHash64.mkHasher s))) ∧
    metrohash128 M128 (Input.bytestr chunks.flatten) s
      = .ok (MetroHash128.intdigest M128
          (chunks.foldl (fun st c => (MetroHash128.update st (Input.bytestr c)).1)
            (MetroHash128.mkHasher s))) := by
  constructor
  · rw [foldl_update64_bytes]
    simp [metrohash64, adaptInput, MetroHash64.intdigest, MetroHash64.mkHasher]
  · rw [foldl_update128_bytes]
    simp [metrohash128, adaptInput, MetroHash128.intdigest, MetroHash128.mkHasher,
      oneShotAssemble128, digestAssemble128]

/-- Claim C2: for every supported input (one the dispatch adapts to a byte
view) and every seed, metrohash128 returns first * 2^64 + second, where
first and second are the two words of the pair emitted by the primitive,
the first word being the high word and the second the low word. -/
theorem metrohash128_assembles_high_low (M : Mix128) (data : Input) (s : Nat)
    (b : ByteSeq) (h : adaptInput data = .ok b) :
    metrohash128 M data s = .ok ((M.hash b s).1 * 2 ^ 64 + (M.hash b s).2) := by
  unfold metrohash128
  rw [h]
  unfold oneShotAssemble128
  norm_num [Nat.mul_comm]

/-- Witness for claim C2 at a concrete primitive, input and seed. -/
theorem metrohash128_assembles_high_low_witness :
    metrohash128 testMix128 (Input.bytestr [1, 2]) 3
      = .ok ((testMix128.hash [1, 2] 3).1 * 2 ^ 64 + (testMix128.hash [1, 2] 3).2) :=
  metrohash128_assembles_high_low testMix128 (Input.bytestr [1, 2]) 3 [1, 2] rfl

/-- Claim C3: in the textual paths of MetroHash64.update and of
MetroHash128.update, the owned buffer holding the UTF-8 encoding is still
alive at the moment its bytes are passed to the primitive Update: although
Py_DECREF precedes the Update call in the source, the buffer view acquired
by PyObject_GetBuffer holds its own reference, so the reference count is
still positive there. -/
theorem utf8_buffer_alive_at_update :
    bufferAliveAtUse updateTextTrace64 = true ∧
    bufferAliveAtUse updateTextTrace128 = true := by
  decide

/-- Claim C4 counterexample: under a seed-sensitive primitive, a hasher
constructed with seed 1 and reset by initialize with no argument digests
differently from a fresh hasher with seed 1 fed the same (empty) bytes: the
default seed of initialize is 0, not the construction seed. -/
theorem reinit_default_ignores_construction_seed :
    MetroHash64.intdigest testMix64
        ((MetroHash64.update (MetroHash64.reinitDefault (MetroHash64.mkHasher 1))
          (Input.bytestr [])).1)
      ≠ MetroHash64.intdigest testMix64
        ((MetroHash64.update (MetroHash64.mkHasher 1) (Input.bytestr [])).1) := by
  decide

/-- Claim C4 (amended): calling initialize with no explicit seed argument
resets the hasher with the default seed 0, whatever the construction seed:
feeding any bytes then reading the digest matches a fresh default hasher
fed the same bytes; and the seed parameter defaults to zero on
construction, on initialize and on the one-shot functions. -/
theorem reinit_default_uses_seed_zero (M64 : Mix64) (M128 : Mix128)
    (s : Nat) (b : ByteSeq) (data : Input) :
    MetroHash64.intdigest M64
        ((MetroHash64.update (MetroHash64.reinitDefault (MetroHash64.mkHasher s))
          (Input.bytestr b)).1)
      = MetroHash64.intdigest M64
          ((MetroHash64.update MetroHash64.mkHasherDefault (Input.bytestr b)).1) ∧
    MetroHash128.intdigest M128
        ((MetroHash128.update (MetroHash128.reinitDefault (MetroHash128.mkHasher s))
          (Input.bytestr b)).1)
      = MetroHash128.intdigest M128
          ((MetroHash128.update MetroHash128.mkHasherDefault (Input.bytestr b)).1) ∧
    metrohash64_default M64 data = metrohash64 M64 data 0 ∧
    metrohash128_default M128 data = metrohash128 M128 data 0 ∧
    MetroHash64.mkHasherDefault = MetroHash64.mkHasher 0 ∧
    MetroHash128.mkHasherDefault = MetroHash128.mkHasher 0 ∧
    MetroHash64.reinitDefault (MetroHash64.mkHasher s)
      = MetroHash64.reinit (MetroHash64.mkHasher s) 0 ∧
    MetroHash128.reinitDefault (MetroHash128.mkHasher s)
      = MetroHash128.reinit (MetroHash128.mkHasher s) 0 :=
  ⟨rfl, rfl, rfl, rfl, rfl, rfl, rfl, rfl⟩

/-- Claim C5: an unsupported input makes metrohash64, metrohash128 and both
update methods fail with the typed error carrying the argument name, the
accepted categories and the observed type, and a failed update leaves the
hasher state, hence any later digest, exactly as before the call. -/
theorem unsupported_input_rejected (M64 : Mix64) (M128 : Mix128)
    (ty : String) (s : Nat) (st64 st128 : MetroState) :
    metrohash64 M64 (Input.other ty) s
      = .error ⟨"data", ["basestring", "buffer"], ty⟩ ∧
    metrohash128 M128 (Input.other ty) s
      = .error ⟨"data", ["basestring", "buffer"], ty⟩ ∧
    MetroHash64.update st64 (Input.other ty)
      = (st64, some ⟨"data", ["basestring", "buffer"], ty⟩) ∧
    MetroHash128.update st128 (Input.other ty)
      = (st128, some ⟨"data", ["basestring", "buffer"], ty⟩) ∧
    MetroHash64.intdigest M64 (MetroHash64.update st64 (Input.other ty)).1
      = MetroHash64.intdigest M64 st64 ∧
    MetroHash128.intdigest M128 (MetroHash128.update st128 (Input.other ty)).1
      = MetroHash128.intdigest M128 st128 :=
  ⟨rfl, rfl, rfl, rfl, rfl, rfl⟩

/-- Claim C6: hashing a text equals hashing its UTF-8 encoding, for both
one-shot functions and both update methods. -/
theorem text_hashes_as_utf8_bytes (M64 : Mix64) (M128 : Mix128)
    (t : List Nat) (s : Nat) (st64 st128 : MetroState) :
    metrohash64 M64 (Input.text t) s
      = metrohash64 M64 (Input.bytestr (utf8Encode t)) s ∧
    metrohash128 M128 (Input.text t) s
      = metrohash128 M128 (Input.bytestr (utf8Encode t)) s ∧
    MetroHash64.update st64 (Input.text t)
      = MetroHash64.update st64 (Input.bytestr (utf8Encode t)) ∧
    MetroHash128.update st128 (Input.text t)
      = MetroHash128.update st128 (Input.bytestr (utf8Encode t)) :=
  ⟨rfl, rfl, rfl, rfl⟩

/-- Claim C7: after an explicit initialize(seed) on a hasher in any prior
state, feeding any chunks and reading the digest equals the fresh one-shot
hash with that seed of only the post-reset bytes: the pre-reset bytes have
no effect. -/
theorem reset_discards_prior_bytes (M64 : Mix64) (M128 : Mix128)
    (pre64 pre128 : MetroState) (s : Nat) (chunks : List ByteSeq) :
    metrohash64 M64 (Input.bytestr chunks.flatten) s
      = .ok (MetroHash64.intdigest M64
          (chunks.foldl (fun st c => (MetroHash64.update st (Input.bytestr c)).1)
            (MetroHash64.reinit pre64 s))) ∧
    metrohash128 M128 (Input.bytestr chunks.flatten) s
      = .ok (MetroHash128.intdigest M128
          (chunks.foldl (fun st c => (MetroHash128.update st (Input.bytestr c)).1)
            (MetroHash128.reinit pre128 s))) := by
  constructor
  · rw [foldl_update64_bytes]
    simp [metrohash64, adaptInput, MetroHash64.intdigest, MetroHash64.reinit]
  · rw [foldl_update128_bytes]
    simp [metrohash128, adaptInput, MetroHash128.intdigest, MetroHash128.reinit,
      oneShotAssemble128, digestAssemble128]

/-- Claim C8: the one-shot 128-bit path and the incremental 128-bit digest
path use the identical composition when assembling the two words, and it is
the assemble128 of the spec: 2^64 times the first word plus the second. -/
theorem assemble_sites_agree (first second : Nat) :
    oneShotAssemble128 first second = digestAssemble128 first second ∧
    oneShotAssemble128 first second = assemble128_spec first second ∧
    (∀ (M : Mix128) (st : MetroState),
      MetroHash128.intdigest M st
        = digestAssemble128 (M.hash st.acc st.seed).1 (M.hash st.acc st.seed).2) ∧
    (∀ (M : Mix128) (b : ByteSeq) (s : Nat),
      metrohash128 M (Input.bytestr b) s
        = .ok (oneShotAssemble128 (M.hash b s).1 (M.hash b s).2)) := by
  refine ⟨rfl, ?_, fun M st => rfl, fun M b s => rfl⟩
  unfold oneShotAssemble128 assemble128_spec
  norm_num [Nat.mul_comm]

/-- The assembled 128-bit value of two 64-bit words is below 2^128. -/
theorem assemble128_lt (f s : Nat) (hf : f < 2 ^ 64) (hs : s < 2 ^ 64) :
    0x10000000000000000 * f + s < 2 ^ 128 := by
  have h1 : (0x10000000000000000 : Nat) = 2 ^ 64 := by norm_num
  have hf1 : f + 1 ≤ 2 ^ 64 := hf
  calc 0x10000000000000000 * f + s < 2 ^ 64 * f + 2 ^ 64 := by rw [h1]; omega
    _ = 2 ^ 64 * (f + 1) := by ring
    _ ≤ 2 ^ 64 * 2 ^ 64 := Nat.mul_le_mul (le_refl _) hf1
    _ = 2 ^ 128 := by norm_num

/-- Claim C9: every successful digest lies in the declared range: the
64-bit results below 2^64, the 128-bit results below 2^128, never truncated
to 64 bits. -/
theorem digest_in_range (M64 : Mix64) (M128 : Mix128) (data : Input) (s : Nat)
    (r64 r128 : Nat) (st : MetroState)
    (h64 : metrohash64 M64 data s = .ok r64)
    (h128 : metrohash128 M128 data s = .ok r128) :
    r64 < 2 ^ 64 ∧ r128 < 2 ^ 128 ∧
    MetroHash64.intdigest M64 st < 2 ^ 64 ∧
    MetroHash128.intdigest M128 st < 2 ^ 128 := by
  refine ⟨?_, ?_, M64.hash_lt st.acc st.seed, ?_⟩
  · unfold metrohash64 at h64
    cases hd : adaptInput data with
    | ok b =>
      rw [hd] at h64
      simp only [Except.ok.injEq] at h64
      subst h64
      exact M64.hash_lt b s
    | error e => rw [hd] at h64; cases h64
  · unfold metrohash128 at h128
    cases hd : adaptInput data with
    | ok b =>
      rw [hd] at h128
      simp only [Except.ok.injEq] at h128
      subst h128
      exact assemble128_lt _ _ (M128.first_lt b s) (M128.second_lt b s)
    | error e => rw [hd] at h128; cases h128
  · exact assemble128_lt _ _ (M128.first_lt st.acc st.seed)
      (M128.second_lt st.acc st.seed)

/-- Witness for claim C9 at a concrete primitive, input, seed and state. -/
theorem digest_in_range_witness :
    1 < 2 ^ 64 ∧ 18446744073709551617 < 2 ^ 128 ∧
    MetroHash64.intdigest testMix64 (MetroHash64.mkHasher 0) < 2 ^ 64 ∧
    MetroHash128.intdigest testMix128 (MetroHash128.mkHasher 0) < 2 ^ 128 :=
  digest_in_range testMix64 testMix128 (Input.bytestr [1]) 0 1
    18446744073709551617 (MetroHash64.mkHasher 0) rfl rfl

/-- Claim C10: an update with the empty byte string or the empty text is an
identity on the hasher state, for both variants, so no later digest
changes; and the one-shot hash of the empty sequence equals the digest of a
freshly constructed hasher with the same seed. -/
theorem empty_update_is_identity (M64 : Mix64) (M128 : Mix128)
    (st64 st128 : MetroState) (s : Nat) :
    MetroHash64.update st64 (Input.bytestr []) = (st64, none) ∧
    MetroHash64.update st64 (Input.text []) = (st64, none) ∧
    MetroHash128.update st128 (Input.bytestr []) = (st128, none) ∧
    MetroHash128.update st128 (Input.text []) = (st128, none) ∧
    metrohash64 M64 (Input.bytestr []) s
      = .ok (MetroHash64.intdigest M64 (MetroHash64.mkHasher s)) ∧
    metrohash128 M128 (Input.bytestr []) s
      = .ok (MetroHash128.intdigest M128 (MetroHash128.mkHasher s)) := by
  obtain ⟨sd64, ac64⟩ := st64
  obtain ⟨sd128, ac128⟩ := st128
  refine ⟨?_, ?_, ?_, ?_, rfl, rfl⟩ <;>
    simp [MetroHash64.update, MetroHash128.update, adaptInput, utf8Encode]

end MetroHashPy
